import Mathlib

/-!
Verification of the SCM webhook pipeline (webhook gateway, platform router,
SCM adapters, queue consumer loops, event-bus delivery) as a shallow
embedding of the Go sources. HTTP transport, JSON byte-level parsing,
HMAC-SHA256 digests and broker I/O are abstracted as explicit parameters
(oracles / parsed values); all control flow and field mapping is translated
directly from the source.
-/

namespace GithubApp

/-- Payload bytes (Go `[]byte`), modelled as a list of byte values. -/
abbrev Bytes := List Nat

/-- `SCMPlatform` is a string type in the source (`type SCMPlatform string`). -/
abbrev SCMPlatform := String

def PlatformGitHub : SCMPlatform := "github"

def PlatformBitbucket : SCMPlatform := "bitbucket"

def PlatformUnknown : SCMPlatform := "unknown"

/-- HTTP headers, modelled by their `Get` operation: absent headers return
the empty string, matching Go `http.Header.Get`. -/
abbrev Headers := String → String

/-- From src/unnamed/part_000 `DetectPlatform`: GitHub is checked first
(`X-GitHub-Event`), then Bitbucket (`X-Event-Key`), else unknown. -/
def DetectPlatform (headers : Headers) : SCMPlatform :=
  if headers "X-GitHub-Event" ≠ "" then PlatformGitHub
  else if headers "X-Event-Key" ≠ "" then PlatformBitbucket
  else PlatformUnknown

/-- From src/unnamed/part_002 `verifyWebhookSignature`: strip an optional
`sha256=` prefix, recompute the HMAC-SHA256 hex digest of the payload under
the secret, and compare. The digest computation itself is Go standard
library code, abstracted as the `digest` parameter; `hmac.Equal` on the two
byte strings is equality. -/
def verifyWebhookSignature (digest : Bytes → String → String)
    (payload : Bytes) (signature secret : String) : Bool :=
  let sig := if signature.take 7 = "sha256=" then signature.drop 7 else signature
  digest payload secret = sig

/-- From src/scm_interface.go `RawWebhookMessage`: the unit of work
published to the raw events queue by the webhook gateway. -/
structure RawWebhookMessage where
  platform : SCMPlatform
  eventType : String
  payload : Bytes
deriving DecidableEq

/-- Observable actions of one gateway request: HTTP responses written and
messages handed to `PublishRawEvent`, in program order. -/
inductive GatewayAction where
  | respond (status : Nat) (body : String)
  | publish (msg : RawWebhookMessage)
deriving DecidableEq

def GatewayAction.isPublish : GatewayAction → Bool
  | .publish _ => true
  | _ => false

def publishedMessages (trace : List GatewayAction) : List RawWebhookMessage :=
  trace.filterMap fun a =>
    match a with
    | .publish m => some m
    | _ => none

/-- The gateway's PR-event filter from src/unnamed/part_002 step 5:
`eventType == "pull_request" || strings.HasPrefix(eventType, "pullrequest:")`. -/
def isPREvent (eventType : String) : Bool :=
  eventType = "pull_request" || eventType.take 12 = "pullrequest:"

/-- Signature-header fallback in src/unnamed/part_002 `WebhookHandler`:
GitHub uses `X-Hub-Signature-256`, Bitbucket uses `X-Hub-Signature`. -/
def resolvedSignature (headers : Headers) : String :=
  if headers "X-Hub-Signature-256" ≠ "" then headers "X-Hub-Signature-256"
  else headers "X-Hub-Signature"

/-- Raw event-type resolution in src/unnamed/part_002 `WebhookHandler`:
`X-GitHub-Event`, overridden by `X-Event-Key` for Bitbucket. -/
def resolvedEventType (headers : Headers) : String :=
  if DetectPlatform headers = PlatformBitbucket then headers "X-Event-Key"
  else headers "X-GitHub-Event"

/-- From src/unnamed/part_002 `WebhookHandler`, translated step by step:
read body (given), check `WEBHOOK_SECRET`, resolve the signature header
(`X-Hub-Signature-256` falling back to `X-Hub-Signature`), verify, detect
platform, resolve the raw event type, write `200 received`, filter non-PR
events, and publish the raw message when the queue client (`mq`) is
initialised. `mqUp` models `mq != nil`; a failed `PublishRawEvent` is only
logged, so the publish action records the message handed to the queue
client. -/
def WebhookHandler (digest : Bytes → String → String) (secret : String)
    (headers : Headers) (body : Bytes) (mqUp : Bool) : List GatewayAction :=
  if secret = "" then [.respond 500 "webhook secret not configured"]
  else
    let signature := resolvedSignature headers
    if signature = "" then [.respond 400 "signature missing"]
    else if verifyWebhookSignature digest body signature secret = false then
      [.respond 401 "invalid signature"]
    else
      let platform := DetectPlatform headers
      let eventType := resolvedEventType headers
      GatewayAction.respond 200 "received" ::
        (if isPREvent eventType = false then []
         else if mqUp = false then []
         else [.publish ⟨platform, eventType, body⟩])

/-- From src/scm_interface.go `NormalizedPR`. -/
structure NormalizedPR where
  number : Int
  title : String
  description : String
  author : String
  sourceBranch : String
  targetBranch : String
  state : String
  url : String
deriving DecidableEq

/-- From src/scm_interface.go `NormalizedRepository`. -/
structure NormalizedRepository where
  name : String
  fullName : String
  owner : String
  cloneURL : String
  htmlURL : String
deriving DecidableEq

/-- From src/scm_interface.go `NormalizedFile`. -/
structure NormalizedFile where
  filename : String
  status : String
  additions : Int
  deletions : Int
  changes : Int
  previousFilename : String
deriving DecidableEq

/-- From src/scm_interface.go `NormalizedEvent`. `ReceivedAt` (`time.Now()`)
is modelled as an abstract clock value supplied to `NormalizeEvent`. -/
structure NormalizedEvent where
  platform : SCMPlatform
  eventType : String
  action : String
  pr : NormalizedPR
  repository : NormalizedRepository
  files : List NormalizedFile
  rawPayload : Bytes
  receivedAt : Nat
deriving DecidableEq

/-- From src/unnamed/part_008 `PRFile`: the GitHub-specific changed-file
shape returned by `getPRChangedFiles`. -/
structure PRFile where
  filename : String
  status : String
  additions : Int
  deletions : Int
  changes : Int
  previousFilename : String
deriving DecidableEq

namespace GitHubAdapter

/-- From src/scm_github.go `GitHubAdapter.GetPRFiles`: token acquisition and
the `getPRChangedFiles` HTTP fetch are abstracted as the `fetched` outcome;
each `PRFile` is copied field-for-field into a `NormalizedFile` (no status
mapping and no recomputation of `changes`). -/
def GetPRFiles (fetched : Except String (List PRFile)) :
    Except String (List NormalizedFile) :=
  match fetched with
  | .error e => .error e
  | .ok rawFiles =>
    .ok (rawFiles.map fun f =>
      { filename := f.filename
        status := f.status
        additions := f.additions
        deletions := f.deletions
        changes := f.changes
        previousFilename := f.previousFilename })

end GitHubAdapter

/-- From src/scm_github.go `isFileEnrichableAction`: true for
`opened`, `synchronize`, `reopened`. -/
def isFileEnrichableAction (action : String) : Bool :=
  if action = "opened" then true
  else if action = "synchronize" then true
  else if action = "reopened" then true
  else false

/-- From src/scm_github.go `ghWebhookPayload` nested `user`/`owner` login. -/
structure GhLogin where
  login : String
deriving DecidableEq

/-- From src/scm_github.go `ghWebhookPayload` nested `head`/`base` ref. -/
structure GhRef where
  ref : String
deriving DecidableEq

/-- From src/scm_github.go `ghWebhookPayload.PullRequest`. -/
structure GhWebhookPR where
  number : Int
  title : String
  body : String
  state : String
  htmlURL : String
  user : GhLogin
  head : GhRef
  base : GhRef
deriving DecidableEq

/-- From src/scm_github.go `ghWebhookPayload.Repository`. -/
structure GhWebhookRepo where
  name : String
  fullName : String
  htmlURL : String
  cloneURL : String
  owner : GhLogin
deriving DecidableEq

/-- From src/scm_github.go `ghWebhookPayload`. -/
structure GhWebhookPayload where
  action : String
  number : Int
  pullRequest : GhWebhookPR
  repository : GhWebhookRepo
deriving DecidableEq

namespace GitHubAdapter

/-- From src/scm_github.go `GitHubAdapter.NormalizeEvent`. JSON decoding of
the payload bytes is abstracted: `parsed` is `none` exactly when
`json.Unmarshal` fails. The provider API is the `getPRFiles` oracle; the
returned list records the `GetPRFiles` calls made (owner, repo, prNumber),
so that enrichment attempts are observable. On enrichment failure the
event is returned with its `files` left empty, as in the source. -/
def NormalizeEvent (getPRFiles : String → String → Int → Except String (List NormalizedFile))
    (parsed : Option GhWebhookPayload) (payload : Bytes) (now : Nat) :
    Except String (NormalizedEvent × List (String × String × Int)) :=
  match parsed with
  | none => .error "GitHub adapter: failed to parse webhook payload"
  | some p =>
    let pr := p.pullRequest
    let repo := p.repository
    let event : NormalizedEvent :=
      { platform := PlatformGitHub
        eventType := "pull_request." ++ p.action
        action := p.action
        pr :=
          { number := pr.number
            title := pr.title
            description := pr.body
            author := pr.user.login
            sourceBranch := pr.head.ref
            targetBranch := pr.base.ref
            state := pr.state
            url := pr.htmlURL }
        repository :=
          { name := repo.name
            fullName := repo.fullName
            owner := repo.owner.login
            cloneURL := repo.cloneURL
            htmlURL := repo.htmlURL }
        files := []
        rawPayload := payload
        receivedAt := now }
    if pr.number ≠ 0 ∧ isFileEnrichableAction p.action = true then
      match getPRFiles repo.owner.login repo.name pr.number with
      | .error _ => .ok (event, [(repo.owner.login, repo.name, pr.number)])
      | .ok files => .ok ({ event with files := files }, [(repo.owner.login, repo.name, pr.number)])
    else
      .ok (event, [])

end GitHubAdapter

/-- From src/scm_interface.go `bbDiffstatResponse` nested `new`/`old` path. -/
structure BbPath where
  path : String
deriving DecidableEq

/-- From src/scm_interface.go `bbDiffstatResponse.Values` entries. -/
structure BbDiffstatValue where
  status : String
  linesAdded : Int
  linesRemoved : Int
  new : Option BbPath
  old : Option BbPath
deriving DecidableEq

/-- Go `strings.ToLower`, modelled as a per-character ASCII lowercase map
(the status and state strings the adapters lower-case are ASCII). -/
def goToLower (s : String) : String :=
  ⟨s.data.map Char.toLower⟩

/-- From src/scm_interface.go `mapBitbucketStatus`: normalises a Bitbucket
status string (lower-cased) into the common four-value vocabulary,
defaulting to `modified`. -/
def mapBitbucketStatus (status : String) : String :=
  if goToLower status = "added" then "added"
  else if goToLower status = "removed" then "removed"
  else if goToLower status = "modified" then "modified"
  else if goToLower status = "renamed" then "renamed"
  else "modified"

/-- Loop body of src/scm_interface.go `BitbucketAdapter.GetPRFiles`: one
diffstat value becomes one `NormalizedFile`. The status is mapped with
`mapBitbucketStatus`, `changes` is computed as `lines_added + lines_removed`,
the filename comes from `new.path` when present, and `previousFilename` is
set from `old.path` only when `old` is present and the lower-cased provider
status is `renamed`. -/
def bbNormalizeValue (v : BbDiffstatValue) : NormalizedFile :=
  { filename :=
      match v.new with
      | some p => p.path
      | none => ""
    status := mapBitbucketStatus v.status
    additions := v.linesAdded
    deletions := v.linesRemoved
    changes := v.linesAdded + v.linesRemoved
    previousFilename :=
      match v.old with
      | some p => if goToLower v.status = "renamed" then p.path else ""
      | none => "" }

namespace BitbucketAdapter

/-- From src/scm_interface.go `BitbucketAdapter.GetPRFiles`: the diffstat
HTTP fetch and JSON parse are abstracted as the `fetched` outcome; each
diffstat value is mapped by `bbNormalizeValue`. -/
def GetPRFiles (fetched : Except String (List BbDiffstatValue)) :
    Except String (List NormalizedFile) :=
  match fetched with
  | .error e => .error e
  | .ok values => .ok (values.map bbNormalizeValue)

end BitbucketAdapter

/-- From src/scm_interface.go `mapBitbucketEventKey`: converts a Bitbucket
`X-Event-Key` into the normalised `(eventType, action)` pair. -/
def mapBitbucketEventKey (key : String) : String × String :=
  if key = "pullrequest:created" then ("pull_request.opened", "opened")
  else if key = "pullrequest:updated" then ("pull_request.updated", "synchronize")
  else if key = "pullrequest:fulfilled" then ("pull_request.closed", "closed")
  else if key = "pullrequest:rejected" then ("pull_request.closed", "closed")
  else ("pull_request.unknown", "unknown")

/-- `strings.SplitN(s, sep, 2)`: at most two pieces, splitting at the first
occurrence of the separator. -/
def splitN2 (s sep : String) : List String :=
  match s.splitOn sep with
  | [] => [s]
  | [x] => [x]
  | x :: rest => [x, String.intercalate sep rest]

/-- From src/scm_interface.go `bbWebhookPayload` nested author/owner. -/
structure BbAccount where
  nickname : String
  displayName : String
deriving DecidableEq

/-- Branch name wrapper (`source.branch` / `destination.branch`). -/
structure BbBranch where
  name : String
deriving DecidableEq

/-- `source` / `destination` wrapper of `bbWebhookPayload.PullRequest`. -/
structure BbBranchRef where
  branch : BbBranch
deriving DecidableEq

/-- `links.html` wrapper. -/
structure BbHtmlLink where
  href : String
deriving DecidableEq

/-- One `links.clone` entry (`name` is `"https"` or `"ssh"`). -/
structure BbCloneLink where
  href : String
  name : String
deriving DecidableEq

/-- `links` of `bbWebhookPayload.PullRequest`. -/
structure BbPRLinks where
  html : BbHtmlLink
deriving DecidableEq

/-- From src/scm_interface.go `bbWebhookPayload.PullRequest`. -/
structure BbWebhookPR where
  id : Int
  title : String
  description : String
  state : String
  author : BbAccount
  source : BbBranchRef
  destination : BbBranchRef
  links : BbPRLinks
deriving DecidableEq

/-- `links` of `bbWebhookPayload.Repository`. -/
structure BbRepoLinks where
  html : BbHtmlLink
  clone : List BbCloneLink
deriving DecidableEq

/-- From src/scm_interface.go `bbWebhookPayload.Repository`. -/
structure BbWebhookRepo where
  name : String
  fullName : String
  owner : BbAccount
  links : BbRepoLinks
deriving DecidableEq

/-- From src/scm_interface.go `bbWebhookPayload`. -/
structure BbWebhookPayload where
  pullRequest : BbWebhookPR
  repository : BbWebhookRepo
deriving DecidableEq

/-- Owner/repo-slug split in `BitbucketAdapter.NormalizeEvent`: Bitbucket
`full_name` is `workspace/repo-slug`; `strings.SplitN(fullName, "/", 2)`
yields two parts when a separator is present, otherwise the owner stays
empty and the repository's `name` field is used. -/
def bbOwnerRepo (repo : BbWebhookRepo) : String × String :=
  let parts := splitN2 repo.fullName "/"
  if parts.length = 2 then (parts.getD 0 "", parts.getD 1 "")
  else ("", repo.name)

namespace BitbucketAdapter

/-- From src/scm_interface.go `BitbucketAdapter.NormalizeEvent`. JSON
decoding of the payload bytes is abstracted (`parsed` is `none` exactly when
`json.Unmarshal` fails); the provider API is the `getPRFiles` oracle, and
the returned list records the `GetPRFiles` calls made. Mirrors the source:
event key mapping, `full_name` split into owner and repo slug, HTTPS clone
link selection, lower-cased PR state, and best-effort file enrichment for
`opened`/`synchronize` actions on a non-zero PR id. -/
def NormalizeEvent (getPRFiles : String → String → Int → Except String (List NormalizedFile))
    (parsed : Option BbWebhookPayload) (eventType : String) (payload : Bytes) (now : Nat) :
    Except String (NormalizedEvent × List (String × String × Int)) :=
  match parsed with
  | none => .error "Bitbucket adapter: failed to parse webhook payload"
  | some p =>
    let mapped := mapBitbucketEventKey eventType
    let normalizedType := mapped.1
    let action := mapped.2
    let pr := p.pullRequest
    let repo := p.repository
    let owner := (bbOwnerRepo repo).1
    let repoName := (bbOwnerRepo repo).2
    let cloneURL :=
      match repo.links.clone.find? (fun link => link.name = "https") with
      | some link => link.href
      | none => ""
    let event : NormalizedEvent :=
      { platform := PlatformBitbucket
        eventType := normalizedType
        action := action
        pr :=
          { number := pr.id
            title := pr.title
            description := pr.description
            author := pr.author.nickname
            sourceBranch := pr.source.branch.name
            targetBranch := pr.destination.branch.name
            state := goToLower pr.state
            url := pr.links.html.href }
        repository :=
          { name := repoName
            fullName := repo.fullName
            owner := owner
            cloneURL := cloneURL
            htmlURL := repo.links.html.href }
        files := []
        rawPayload := payload
        receivedAt := now }
    if pr.id ≠ 0 ∧ (action = "opened" ∨ action = "synchronize") then
      match getPRFiles owner repoName pr.id with
      | .error _ => .ok (event, [(owner, repoName, pr.id)])
      | .ok files => .ok ({ event with files := files }, [(owner, repoName, pr.id)])
    else
      .ok (event, [])

end BitbucketAdapter

/-- Observable actions of a consumer loop on one queue, in program order:
a negative acknowledgment (with its requeue flag), a synchronous handler
invocation, or a positive acknowledgment. -/
inductive ConsumeAction (μ : Type) where
  | nack (requeue : Bool)
  | handle (msg : μ)
  | ack
deriving DecidableEq

/-- From src/scm_interface.go `ConsumeRawEvents`: the delivery loop
(`for d := range deliveries`). JSON decoding is the `decode` parameter
(`none` exactly when `json.Unmarshal` fails). A failed decode is nacked
with `requeue = false` and the loop continues; a successful decode runs the
handler synchronously and then acks. -/
def ConsumeRawEvents (decode : Bytes → Option RawWebhookMessage) :
    List Bytes → List (ConsumeAction RawWebhookMessage)
  | [] => []
  | d :: rest =>
    match decode d with
    | none => .nack false :: ConsumeRawEvents decode rest
    | some msg => .handle msg :: .ack :: ConsumeRawEvents decode rest

/-- From src/scm_interface.go `ConsumeNormalizedEvents`: mirrors
`ConsumeRawEvents` on the normalized events queue. -/
def ConsumeNormalizedEvents (decode : Bytes → Option NormalizedEvent) :
    List Bytes → List (ConsumeAction NormalizedEvent)
  | [] => []
  | d :: rest =>
    match decode d with
    | none => .nack false :: ConsumeNormalizedEvents decode rest
    | some event => .handle event :: .ack :: ConsumeNormalizedEvents decode rest

/-- Outcome of the HTTP POST to the Platform BE sink: a transport-level
error, or a response with a status code. -/
inductive PostResult where
  | transportError
  | response (status : Nat)
deriving DecidableEq

/-- From src/unnamed/part_002 `DeliverEvent`: empty sink URL logs the event
and returns success (dev mode); a transport error is returned as an error;
a response with `StatusCode >= 400` is returned as an error; any other
response is success. `json.Marshal` of a `NormalizedEvent` cannot fail and
is not modelled; the POST outcome is the `post` parameter. -/
def DeliverEvent (event : NormalizedEvent) (url : String) (post : PostResult) :
    Except String Unit :=
  if url = "" then .ok ()
  else
    match post with
    | .transportError => .error ("event_bus: failed to reach Platform BE at " ++ url)
    | .response status =>
      if 400 ≤ status then .error "event_bus: Platform BE returned error"
      else .ok ()

/-! Concrete inputs used to instantiate the theorems below. -/

/-- A digest oracle that returns a fixed hex string; signature validity in
the gateway depends only on whether the supplied header matches it. -/
def constDigest : Bytes → String → String := fun _ _ => "0abc"

/-- GitHub headers for a non-PR event (`push`) with a matching signature. -/
def ghPushHeaders : Headers := fun h =>
  if h = "X-GitHub-Event" then "push"
  else if h = "X-Hub-Signature-256" then "sha256=0abc"
  else ""

/-- GitHub headers for a `pull_request` event with a matching signature. -/
def ghPRHeaders : Headers := fun h =>
  if h = "X-GitHub-Event" then "pull_request"
  else if h = "X-Hub-Signature-256" then "sha256=0abc"
  else ""

/-- GitHub headers for a `pull_request` event with a wrong signature. -/
def ghBadSigHeaders : Headers := fun h =>
  if h = "X-GitHub-Event" then "pull_request"
  else if h = "X-Hub-Signature-256" then "sha256=ffff"
  else ""

/-- Headers carrying both provider signals. -/
def bothSignalHeaders : Headers := fun h =>
  if h = "X-GitHub-Event" then "pull_request"
  else if h = "X-Event-Key" then "pullrequest:created"
  else ""

/-- A concrete parsed GitHub webhook payload (enrichable action). -/
def ghSamplePayload : GhWebhookPayload :=
  { action := "opened"
    number := 7
    pullRequest :=
      { number := 7
        title := "Add feature"
        body := "details"
        state := "open"
        htmlURL := "https://github.com/acme/widgets/pull/7"
        user := ⟨"alice"⟩
        head := ⟨"feature"⟩
        base := ⟨"main"⟩ }
    repository :=
      { name := "widgets"
        fullName := "acme/widgets"
        htmlURL := "https://github.com/acme/widgets"
        cloneURL := "https://github.com/acme/widgets.git"
        owner := ⟨"acme"⟩ } }

/-- A concrete parsed Bitbucket webhook payload with PR id `0` (no
enrichment is attempted for it). -/
def bbSamplePayload : BbWebhookPayload :=
  { pullRequest :=
      { id := 0
        title := "Fix build"
        description := "details"
        state := "OPEN"
        author := ⟨"bob", "Bob"⟩
        source := ⟨⟨"feature"⟩⟩
        destination := ⟨⟨"main"⟩⟩
        links := ⟨⟨"https://bitbucket.org/acme/widgets/pull-requests/3"⟩⟩ }
    repository :=
      { name := "widgets"
        fullName := "acme/widgets"
        owner := ⟨"acme", "Acme"⟩
        links := ⟨⟨"https://bitbucket.org/acme/widgets"⟩,
                  [⟨"https://bitbucket.org/acme/widgets.git", "https"⟩]⟩ } }

/-- A concrete normalized event used to instantiate delivery theorems. -/
def sampleNormalizedEvent : NormalizedEvent :=
  { platform := PlatformGitHub
    eventType := "pull_request.opened"
    action := "opened"
    pr :=
      { number := 7
        title := "Add feature"
        description := "details"
        author := "alice"
        sourceBranch := "feature"
        targetBranch := "main"
        state := "open"
        url := "https://github.com/acme/widgets/pull/7" }
    repository :=
      { name := "widgets"
        fullName := "acme/widgets"
        owner := "acme"
        cloneURL := "https://github.com/acme/widgets.git"
        htmlURL := "https://github.com/acme/widgets" }
    files := []
    rawPayload := []
    receivedAt := 0 }

/-- A provider-API oracle that always fails, modelling an unreachable or
degraded SCM API during file enrichment. -/
def errOracle : String → String → Int → Except String (List NormalizedFile) :=
  fun _ _ _ => Except.error "api down"

/-- The normalized event the GitHub adapter produces from
`ghSamplePayload` when file enrichment fails (files stay empty). -/
def ghSampleEvent : NormalizedEvent :=
  { platform := PlatformGitHub
    eventType := "pull_request.opened"
    action := "opened"
    pr :=
      { number := 7
        title := "Add feature"
        description := "details"
        author := "alice"
        sourceBranch := "feature"
        targetBranch := "main"
        state := "open"
        url := "https://github.com/acme/widgets/pull/7" }
    repository :=
      { name := "widgets"
        fullName := "acme/widgets"
        owner := "acme"
        cloneURL := "https://github.com/acme/widgets.git"
        htmlURL := "https://github.com/acme/widgets" }
    files := []
    rawPayload := []
    receivedAt := 0 }

/-- A Bitbucket diffstat entry whose provider status is outside the four
normalized values. -/
def bbCopiedValue : BbDiffstatValue :=
  ⟨"copied", 3, 4, some ⟨"x.go"⟩, none⟩

/-- A Bitbucket diffstat entry reported as renamed but with no old path. -/
def bbRenamedNoOld : BbDiffstatValue :=
  ⟨"renamed", 1, 1, some ⟨"new.go"⟩, none⟩

/-- A Bitbucket diffstat entry reported as renamed with an old path. -/
def bbRenamedWithOld : BbDiffstatValue :=
  ⟨"renamed", 1, 0, some ⟨"b.go"⟩, some ⟨"a.go"⟩⟩

/-- C10: `DetectPlatform` is total on header maps and gives the GitHub
signal precedence: when both `X-GitHub-Event` and `X-Event-Key` are present
it returns the GitHub identifier; it returns Bitbucket exactly when
`X-Event-Key` is present and `X-GitHub-Event` absent; and the Unknown
sentinel when neither is present. -/
theorem C10_detect_platform_precedence (headers : Headers) :
    (headers "X-GitHub-Event" ≠ "" → headers "X-Event-Key" ≠ "" →
      DetectPlatform headers = PlatformGitHub) ∧
    (DetectPlatform headers = PlatformBitbucket ↔
      headers "X-GitHub-Event" = "" ∧ headers "X-Event-Key" ≠ "") ∧
    (headers "X-GitHub-Event" = "" → headers "X-Event-Key" = "" →
      DetectPlatform headers = PlatformUnknown) := by
  rcases eq_or_ne (headers "X-GitHub-Event") "" with hg | hg <;>
    rcases eq_or_ne (headers "X-Event-Key") "" with he | he <;>
      simp [DetectPlatform, hg, he, PlatformGitHub, PlatformBitbucket, PlatformUnknown]

/-- C10 witness: with both signals present the GitHub identifier wins, and
with no signals the Unknown sentinel is returned. -/
theorem C10_detect_platform_precedence_w :
    DetectPlatform bothSignalHeaders = PlatformGitHub ∧
    DetectPlatform (fun _ => "") = PlatformUnknown :=
  ⟨(C10_detect_platform_precedence bothSignalHeaders).1 (by decide) (by decide),
   (C10_detect_platform_precedence (fun _ => "")).2.2 rfl rfl⟩

/-- C2: with the secret configured, a supplied signature that fails
HMAC-SHA256 verification makes the gateway respond `401` with body
`invalid signature`, and nothing is handed to the queue client. -/
theorem C2_invalid_signature_rejected (digest : Bytes → String → String)
    (secret : String) (headers : Headers) (body : Bytes) (mqUp : Bool)
    (hsecret : secret ≠ "") (hsig : resolvedSignature headers ≠ "")
    (hverify : verifyWebhookSignature digest body (resolvedSignature headers) secret = false) :
    WebhookHandler digest secret headers body mqUp =
      [GatewayAction.respond 401 "invalid signature"] ∧
    publishedMessages (WebhookHandler digest secret headers body mqUp) = [] := by
  have h : WebhookHandler digest secret headers body mqUp =
      [GatewayAction.respond 401 "invalid signature"] := by
    unfold WebhookHandler
    simp [hsecret, hsig, hverify]
  exact ⟨h, by rw [h]; rfl⟩

/-- C2 witness: concrete request with a wrong signature is rejected with
`401` and no publish. -/
theorem C2_invalid_signature_rejected_w :
    WebhookHandler constDigest "topsecret" ghBadSigHeaders [104, 105] true =
      [GatewayAction.respond 401 "invalid signature"] ∧
    publishedMessages (WebhookHandler constDigest "topsecret" ghBadSigHeaders [104, 105] true) = [] :=
  C2_invalid_signature_rejected constDigest "topsecret" ghBadSigHeaders [104, 105] true
    (by decide) (by decide) (by decide)

/-- C1 counterexample: the claim fails as stated. With a valid signature
the gateway responds `200 received` but publishes nothing when the raw
event type is not a pull-request event (`push`), and likewise when the
queue client is not initialised. -/
theorem C1_counterexample :
    WebhookHandler constDigest "topsecret" ghPushHeaders [104, 105] true =
      [GatewayAction.respond 200 "received"] ∧
    publishedMessages (WebhookHandler constDigest "topsecret" ghPushHeaders [104, 105] true) = [] ∧
    WebhookHandler constDigest "topsecret" ghPRHeaders [104, 105] false =
      [GatewayAction.respond 200 "received"] ∧
    publishedMessages (WebhookHandler constDigest "topsecret" ghPRHeaders [104, 105] false) = [] := by
  decide

/-- C1 (amended): with the secret configured, a valid signature, a
pull-request raw event type, and the queue client initialised, the gateway
responds `200 received` and hands exactly one `RawWebhookMessage` to the
queue client, whose payload is byte-identical to the request body. -/
theorem C1_valid_pr_event_published (digest : Bytes → String → String)
    (secret : String) (headers : Headers) (body : Bytes)
    (hsecret : secret ≠ "") (hsig : resolvedSignature headers ≠ "")
    (hverify : verifyWebhookSignature digest body (resolvedSignature headers) secret = true)
    (hpr : isPREvent (resolvedEventType headers) = true) :
    WebhookHandler digest secret headers body true =
      [GatewayAction.respond 200 "received",
       GatewayAction.publish ⟨DetectPlatform headers, resolvedEventType headers, body⟩] ∧
    publishedMessages (WebhookHandler digest secret headers body true) =
      [⟨DetectPlatform headers, resolvedEventType headers, body⟩] ∧
    (⟨DetectPlatform headers, resolvedEventType headers, body⟩ : RawWebhookMessage).payload = body := by
  have h : WebhookHandler digest secret headers body true =
      [GatewayAction.respond 200 "received",
       GatewayAction.publish ⟨DetectPlatform headers, resolvedEventType headers, body⟩] := by
    unfold WebhookHandler
    simp [hsecret, hsig, hverify, hpr]
  exact ⟨h, by rw [h]; rfl, rfl⟩

/-- C1 witness: a concrete valid `pull_request` request is acknowledged
with `200 received` and published once, byte-identically. -/
theorem C1_valid_pr_event_published_w :
    WebhookHandler constDigest "topsecret" ghPRHeaders [104, 105] true =
      [GatewayAction.respond 200 "received",
       GatewayAction.publish ⟨DetectPlatform ghPRHeaders, resolvedEventType ghPRHeaders, [104, 105]⟩] ∧
    publishedMessages (WebhookHandler constDigest "topsecret" ghPRHeaders [104, 105] true) =
      [⟨DetectPlatform ghPRHeaders, resolvedEventType ghPRHeaders, [104, 105]⟩] ∧
    (⟨DetectPlatform ghPRHeaders, resolvedEventType ghPRHeaders, [104, 105]⟩ : RawWebhookMessage).payload = [104, 105] :=
  C1_valid_pr_event_published constDigest "topsecret" ghPRHeaders [104, 105]
    (by decide) (by decide) (by decide) (by decide)

/-- C4: on the path where signature verification succeeds, the `200`
response is the first action of the trace and everything after it is a
queue publish, so the acknowledgment strictly precedes any queue
interaction. -/
theorem C4_respond_before_publish (digest : Bytes → String → String)
    (secret : String) (headers : Headers) (body : Bytes) (mqUp : Bool)
    (hsecret : secret ≠ "") (hsig : resolvedSignature headers ≠ "")
    (hverify : verifyWebhookSignature digest body (resolvedSignature headers) secret = true) :
    ∃ rest, WebhookHandler digest secret headers body mqUp =
        GatewayAction.respond 200 "received" :: rest ∧
      ∀ a ∈ rest, a.isPublish = true := by
  refine ⟨(if isPREvent (resolvedEventType headers) = false then []
           else if mqUp = false then []
           else [GatewayAction.publish ⟨DetectPlatform headers, resolvedEventType headers, body⟩]),
    ?_, ?_⟩
  · unfold WebhookHandler
    simp [hsecret, hsig, hverify]
  · split
    · intro a ha; cases ha
    · split
      · intro a ha; cases ha
      · intro a ha
        rw [List.mem_singleton] at ha
        subst ha
        rfl

/-- C4 witness: on a concrete verified request, the trace starts with the
`200` acknowledgment and continues only with publishes. -/
theorem C4_respond_before_publish_w :
    ∃ rest, WebhookHandler constDigest "topsecret" ghPRHeaders [104, 105] true =
        GatewayAction.respond 200 "received" :: rest ∧
      ∀ a ∈ rest, a.isPublish = true :=
  C4_respond_before_publish constDigest "topsecret" ghPRHeaders [104, 105] true
    (by decide) (by decide) (by decide)

/-- C5: on both queues, a delivery that fails to deserialize is negatively
acknowledged with requeue disabled and the loop continues with the
remaining deliveries; a delivery that deserializes is handled synchronously
and positively acknowledged strictly after the handler, before the loop
continues. -/
theorem C5_consumer_ack_discipline (decodeR : Bytes → Option RawWebhookMessage)
    (decodeN : Bytes → Option NormalizedEvent) (d : Bytes) (rest : List Bytes) :
    (decodeR d = none →
      ConsumeRawEvents decodeR (d :: rest) =
        ConsumeAction.nack false :: ConsumeRawEvents decodeR rest) ∧
    (∀ msg, decodeR d = some msg →
      ConsumeRawEvents decodeR (d :: rest) =
        ConsumeAction.handle msg :: ConsumeAction.ack :: ConsumeRawEvents decodeR rest) ∧
    (decodeN d = none →
      ConsumeNormalizedEvents decodeN (d :: rest) =
        ConsumeAction.nack false :: ConsumeNormalizedEvents decodeN rest) ∧
    (∀ ev, decodeN d = some ev →
      ConsumeNormalizedEvents decodeN (d :: rest) =
        ConsumeAction.handle ev :: ConsumeAction.ack :: ConsumeNormalizedEvents decodeN rest) := by
  refine ⟨fun h => ?_, fun msg h => ?_, fun h => ?_, fun ev h => ?_⟩ <;>
    simp [ConsumeRawEvents, ConsumeNormalizedEvents, h]

/-- C5 witness: a poison delivery is discarded with requeue disabled, and a
decodable delivery is handled and then acknowledged. -/
theorem C5_consumer_ack_discipline_w :
    ConsumeRawEvents (fun _ => none) [[0]] = [ConsumeAction.nack false] ∧
    ConsumeNormalizedEvents (fun _ => some sampleNormalizedEvent) [[0]] =
      [ConsumeAction.handle sampleNormalizedEvent, ConsumeAction.ack] := by
  have h := C5_consumer_ack_discipline (fun _ => none)
    (fun _ => some sampleNormalizedEvent) [0] []
  exact ⟨h.1 rfl, h.2.2.2 sampleNormalizedEvent rfl⟩

/-- C9 counterexample: the claim fails as stated. A `301` response is not a
2xx status, yet `DeliverEvent` treats it as success, because only statuses
at or above `400` are reported as delivery failures. -/
theorem C9_counterexample :
    DeliverEvent sampleNormalizedEvent "http://platform-be" (PostResult.response 301) =
      Except.ok () ∧
    ¬ (200 ≤ 301 ∧ 301 ≤ 299) := ⟨rfl, by decide⟩

/-- C9 (amended): `DeliverEvent` succeeds when no sink URL is configured;
with a sink URL it fails exactly when the POST fails at the transport level
or the sink responds with a status of `400` or above (statuses below `400`,
including 3xx, are treated as success); and the delivery consumer loop
acknowledges a decoded message after the handler regardless of the delivery
outcome, never requeueing it. -/
theorem C9_deliver_event_semantics (event : NormalizedEvent) (url : String)
    (post : PostResult) (decodeN : Bytes → Option NormalizedEvent)
    (d : Bytes) (rest : List Bytes) (ev : NormalizedEvent) :
    (url = "" → DeliverEvent event url post = Except.ok ()) ∧
    (url ≠ "" →
      ((∃ err, DeliverEvent event url post = Except.error err) ↔
        (post = PostResult.transportError ∨
          ∃ s, post = PostResult.response s ∧ 400 ≤ s))) ∧
    (decodeN d = some ev →
      ConsumeNormalizedEvents decodeN (d :: rest) =
        ConsumeAction.handle ev :: ConsumeAction.ack :: ConsumeNormalizedEvents decodeN rest) := by
  refine ⟨fun h => by simp [DeliverEvent, h], fun h => ?_, fun h => by
    simp [ConsumeNormalizedEvents, h]⟩
  cases post with
  | transportError => simp [DeliverEvent, h]
  | response s =>
    by_cases hs : 400 ≤ s <;> simp [DeliverEvent, h, hs]

/-- C9 witness: offline mode succeeds, a transport error is a failure, and
a decoded message is handled then acknowledged. -/
theorem C9_deliver_event_semantics_w :
    DeliverEvent sampleNormalizedEvent "" PostResult.transportError = Except.ok () ∧
    (∃ err, DeliverEvent sampleNormalizedEvent "http://platform-be" PostResult.transportError =
      Except.error err) ∧
    ConsumeNormalizedEvents (fun _ => some sampleNormalizedEvent) [[0]] =
      [ConsumeAction.handle sampleNormalizedEvent, ConsumeAction.ack] := by
  refine ⟨(C9_deliver_event_semantics sampleNormalizedEvent "" PostResult.transportError
      (fun _ => some sampleNormalizedEvent) [0] [] sampleNormalizedEvent).1 rfl, ?_, ?_⟩
  · exact ((C9_deliver_event_semantics sampleNormalizedEvent "http://platform-be"
      PostResult.transportError (fun _ => some sampleNormalizedEvent) [0] []
      sampleNormalizedEvent).2.1 (by decide)).mpr (Or.inl rfl)
  · exact (C9_deliver_event_semantics sampleNormalizedEvent "http://platform-be"
      PostResult.transportError (fun _ => some sampleNormalizedEvent) [0] []
      sampleNormalizedEvent).2.2 rfl

/-- The Bitbucket status mapping always lands in the four-value vocabulary. -/
theorem mapBitbucketStatus_mem_four (s : String) :
    mapBitbucketStatus s = "added" ∨ mapBitbucketStatus s = "modified" ∨
    mapBitbucketStatus s = "removed" ∨ mapBitbucketStatus s = "renamed" := by
  unfold mapBitbucketStatus
  split_ifs <;> decide

/-- A status that lower-cases to `renamed` maps to `renamed`. -/
theorem mapBitbucketStatus_of_renamed (s : String) (h : goToLower s = "renamed") :
    mapBitbucketStatus s = "renamed" := by
  unfold mapBitbucketStatus
  rw [h]
  decide

/-- C6 counterexample: the claim fails as stated for the GitHub adapter,
which copies the provider's `status` and `changes` verbatim: a provider
file with status `copied` and `changes` different from
`additions + deletions` is produced unchanged. -/
theorem C6_counterexample :
    GitHubAdapter.GetPRFiles (Except.ok [⟨"lib.go", "copied", 1, 2, 5, ""⟩]) =
      Except.ok [⟨"lib.go", "copied", 1, 2, 5, ""⟩] ∧
    (("copied" : String) ≠ "added" ∧ ("copied" : String) ≠ "modified" ∧
      ("copied" : String) ≠ "removed" ∧ ("copied" : String) ≠ "renamed") ∧
    (5 : Int) ≠ 1 + 2 :=
  ⟨rfl, by decide, by decide⟩

/-- C6 (amended): the Bitbucket adapter's mapping sends any status outside
the four normalized values to `modified`, and every file it produces has a
status among the four and `changes = additions + deletions`; the GitHub
adapter copies the provider's fields verbatim. -/
theorem C6_bitbucket_file_invariants (values : List BbDiffstatValue) (s : String)
    (hs1 : goToLower s ≠ "added") (hs2 : goToLower s ≠ "removed")
    (hs3 : goToLower s ≠ "modified") (hs4 : goToLower s ≠ "renamed") :
    mapBitbucketStatus s = "modified" ∧
    ∀ files, BitbucketAdapter.GetPRFiles (Except.ok values) = Except.ok files →
      ∀ f ∈ files,
        (f.status = "added" ∨ f.status = "modified" ∨ f.status = "removed" ∨
          f.status = "renamed") ∧
        f.changes = f.additions + f.deletions := by
  constructor
  · unfold mapBitbucketStatus
    rw [if_neg hs1, if_neg hs2, if_neg hs3, if_neg hs4]
  · intro files hf f hmem
    dsimp only [BitbucketAdapter.GetPRFiles] at hf
    rw [Except.ok.injEq] at hf
    subst hf
    rcases List.mem_map.mp hmem with ⟨v, _, rfl⟩
    exact ⟨mapBitbucketStatus_mem_four v.status, rfl⟩

/-- Projection of the Bitbucket per-file mapping: the previous filename. -/
theorem bbNormalizeValue_previousFilename (v : BbDiffstatValue) :
    (bbNormalizeValue v).previousFilename =
      match v.old with
      | some p => if goToLower v.status = "renamed" then p.path else ""
      | none => "" := rfl

/-- Projection of the Bitbucket per-file mapping: the status. -/
theorem bbNormalizeValue_status (v : BbDiffstatValue) :
    (bbNormalizeValue v).status = mapBitbucketStatus v.status := rfl

/-- C6 witness: a `copied` diffstat entry is normalized to `modified`, with
`changes` recomputed from additions and deletions. -/
theorem C6_bitbucket_file_invariants_w :
    mapBitbucketStatus "copied" = "modified" ∧
    (((⟨"x.go", "modified", 3, 4, 7, ""⟩ : NormalizedFile).status = "added" ∨
      (⟨"x.go", "modified", 3, 4, 7, ""⟩ : NormalizedFile).status = "modified" ∨
      (⟨"x.go", "modified", 3, 4, 7, ""⟩ : NormalizedFile).status = "removed" ∨
      (⟨"x.go", "modified", 3, 4, 7, ""⟩ : NormalizedFile).status = "renamed") ∧
     (⟨"x.go", "modified", 3, 4, 7, ""⟩ : NormalizedFile).changes =
       (⟨"x.go", "modified", 3, 4, 7, ""⟩ : NormalizedFile).additions +
       (⟨"x.go", "modified", 3, 4, 7, ""⟩ : NormalizedFile).deletions) := by
  have h := C6_bitbucket_file_invariants [bbCopiedValue] "copied"
    (by decide) (by decide) (by decide) (by decide)
  exact ⟨h.1, h.2 [⟨"x.go", "modified", 3, 4, 7, ""⟩] rfl
    ⟨"x.go", "modified", 3, 4, 7, ""⟩ (by decide)⟩

/-- C8 counterexample: the claim fails as stated. The Bitbucket adapter can
produce a file with status `renamed` and an empty `PreviousFilename` (no
old path in the diffstat), and the GitHub adapter copies the provider
verbatim, so a `copied` file can carry a non-empty `PreviousFilename`. -/
theorem C8_counterexample :
    BitbucketAdapter.GetPRFiles (Except.ok [bbRenamedNoOld]) =
      Except.ok [⟨"new.go", "renamed", 1, 1, 2, ""⟩] ∧
    ((⟨"new.go", "renamed", 1, 1, 2, ""⟩ : NormalizedFile).status = "renamed" ∧
      (⟨"new.go", "renamed", 1, 1, 2, ""⟩ : NormalizedFile).previousFilename = "") ∧
    GitHubAdapter.GetPRFiles (Except.ok [⟨"b.go", "copied", 0, 0, 0, "a.go"⟩]) =
      Except.ok [⟨"b.go", "copied", 0, 0, 0, "a.go"⟩] ∧
    ((⟨"b.go", "copied", 0, 0, 0, "a.go"⟩ : NormalizedFile).previousFilename ≠ "" ∧
      (⟨"b.go", "copied", 0, 0, 0, "a.go"⟩ : NormalizedFile).status ≠ "renamed") :=
  ⟨rfl, ⟨rfl, rfl⟩, rfl, by decide⟩

/-- C8 (amended): for every file produced by the Bitbucket adapter, a
non-empty `PreviousFilename` implies status `renamed`; the converse needs
the provider to supply an old path, and the GitHub adapter copies both
fields verbatim from the provider. -/
theorem C8_bitbucket_previous_filename (values : List BbDiffstatValue) :
    ∀ files, BitbucketAdapter.GetPRFiles (Except.ok values) = Except.ok files →
      ∀ f ∈ files, f.previousFilename ≠ "" → f.status = "renamed" := by
  intro files hf f hmem hprev
  dsimp only [BitbucketAdapter.GetPRFiles] at hf
  rw [Except.ok.injEq] at hf
  subst hf
  rcases List.mem_map.mp hmem with ⟨v, _, rfl⟩
  rw [bbNormalizeValue_previousFilename] at hprev
  rw [bbNormalizeValue_status]
  rcases hold : v.old with _ | p
  · rw [hold] at hprev
    dsimp only at hprev
    exact absurd rfl hprev
  · rw [hold] at hprev
    dsimp only at hprev
    by_cases hst : goToLower v.status = "renamed"
    · exact mapBitbucketStatus_of_renamed v.status hst
    · rw [if_neg hst] at hprev
      exact absurd rfl hprev

/-- C8 witness: a renamed diffstat entry with an old path yields a file
whose status is `renamed`. -/
theorem C8_bitbucket_previous_filename_w :
    (⟨"b.go", "renamed", 1, 0, 1, "a.go"⟩ : NormalizedFile).status = "renamed" :=
  C8_bitbucket_previous_filename [bbRenamedWithOld]
    [⟨"b.go", "renamed", 1, 0, 1, "a.go"⟩] rfl
    ⟨"b.go", "renamed", 1, 0, 1, "a.go"⟩ (by decide) (by decide)

/-- Every Bitbucket event-key mapping except `pullrequest:updated` pairs an
event type of the form `pull_request.<action>` with that same action. -/
theorem mapBitbucketEventKey_convention (key : String)
    (h : key ≠ "pullrequest:updated") :
    (mapBitbucketEventKey key).1 = "pull_request." ++ (mapBitbucketEventKey key).2 := by
  unfold mapBitbucketEventKey
  split_ifs <;> decide

/-- C7 counterexample: the claim fails as stated. For the Bitbucket event
key `pullrequest:updated` the produced event has `EventType`
`pull_request.updated` but `Action` `synchronize`, so `EventType` is not
`"pull_request."` followed by `Action`. -/
theorem C7_counterexample :
    (BitbucketAdapter.NormalizeEvent errOracle (some bbSamplePayload)
        "pullrequest:updated" [] 0).toOption.map
      (fun r => (r.1.eventType, r.1.action)) =
      some ("pull_request.updated", "synchronize") ∧
    ("pull_request.updated" : String) ≠ "pull_request." ++ "synchronize" :=
  ⟨rfl, by decide⟩

/-- C7 (amended): every event the GitHub adapter produces satisfies
`EventType = "pull_request." ++ Action`; the Bitbucket adapter satisfies it
for every event key except `pullrequest:updated`, which yields
`EventType = "pull_request.updated"` with `Action = "synchronize"`. -/
theorem C7_eventtype_convention
    (gfG gfB : String → String → Int → Except String (List NormalizedFile))
    (pG : GhWebhookPayload) (pB : BbWebhookPayload) (etB : String)
    (payload : Bytes) (now : Nat) (het : etB ≠ "pullrequest:updated") :
    (∀ e calls, GitHubAdapter.NormalizeEvent gfG (some pG) payload now =
        Except.ok (e, calls) → e.eventType = "pull_request." ++ e.action) ∧
    (∀ e calls, BitbucketAdapter.NormalizeEvent gfB (some pB) etB payload now =
        Except.ok (e, calls) → e.eventType = "pull_request." ++ e.action) := by
  constructor
  · intro e calls h
    dsimp only [GitHubAdapter.NormalizeEvent] at h
    by_cases hc : pG.pullRequest.number ≠ 0 ∧ isFileEnrichableAction pG.action = true
    · rw [if_pos hc] at h
      rcases hgf : gfG pG.repository.owner.login pG.repository.name
          pG.pullRequest.number with err | fs
      · rw [hgf] at h
        simp only [Except.ok.injEq, Prod.mk.injEq] at h
        obtain ⟨h1, -⟩ := h
        subst h1
        rfl
      · rw [hgf] at h
        simp only [Except.ok.injEq, Prod.mk.injEq] at h
        obtain ⟨h1, -⟩ := h
        subst h1
        rfl
    · rw [if_neg hc] at h
      simp only [Except.ok.injEq, Prod.mk.injEq] at h
      obtain ⟨h1, -⟩ := h
      subst h1
      rfl
  · intro e calls h
    dsimp only [BitbucketAdapter.NormalizeEvent] at h
    by_cases hc : pB.pullRequest.id ≠ 0 ∧
        ((mapBitbucketEventKey etB).2 = "opened" ∨ (mapBitbucketEventKey etB).2 = "synchronize")
    · rw [if_pos hc] at h
      rcases hgf : gfB (bbOwnerRepo pB.repository).1 (bbOwnerRepo pB.repository).2
          pB.pullRequest.id with err | fs
      · rw [hgf] at h
        simp only [Except.ok.injEq, Prod.mk.injEq] at h
        obtain ⟨h1, -⟩ := h
        subst h1
        exact mapBitbucketEventKey_convention etB het
      · rw [hgf] at h
        simp only [Except.ok.injEq, Prod.mk.injEq] at h
        obtain ⟨h1, -⟩ := h
        subst h1
        exact mapBitbucketEventKey_convention etB het
    · rw [if_neg hc] at h
      simp only [Except.ok.injEq, Prod.mk.injEq] at h
      obtain ⟨h1, -⟩ := h
      subst h1
      exact mapBitbucketEventKey_convention etB het

/-- C7 witness: the concrete GitHub event produced from an `opened` payload
(with enrichment failing) satisfies the convention. -/
theorem C7_eventtype_convention_w :
    ghSampleEvent.eventType = "pull_request." ++ ghSampleEvent.action :=
  (C7_eventtype_convention errOracle errOracle ghSamplePayload bbSamplePayload
      "pullrequest:created" [] 0 (by decide)).1
    ghSampleEvent [("acme", "widgets", 7)] rfl

/-- C3: for both adapters, on a payload that parses, `NormalizeEvent`
returns a value (never an error); it calls `GetPRFiles` exactly when the
mapped action is in the provider's enrichable set (GitHub: `opened`,
`synchronize`, `reopened`; Bitbucket: `opened`, `synchronize`) and the PR
number is non-zero; and when the enrichment call fails the returned event
has an empty file list. -/
theorem C3_enrichment_best_effort
    (gfG gfB : String → String → Int → Except String (List NormalizedFile))
    (pG : GhWebhookPayload) (pB : BbWebhookPayload) (etB : String)
    (payload : Bytes) (now : Nat) :
    (GitHubAdapter.NormalizeEvent gfG (some pG) payload now).isOk = true ∧
    (∀ e calls, GitHubAdapter.NormalizeEvent gfG (some pG) payload now =
        Except.ok (e, calls) →
      (calls ≠ [] ↔ (pG.pullRequest.number ≠ 0 ∧ isFileEnrichableAction pG.action = true)) ∧
      ((∀ c ∈ calls, ∃ err, gfG c.1 c.2.1 c.2.2 = Except.error err) → e.files = [])) ∧
    (BitbucketAdapter.NormalizeEvent gfB (some pB) etB payload now).isOk = true ∧
    (∀ e calls, BitbucketAdapter.NormalizeEvent gfB (some pB) etB payload now =
        Except.ok (e, calls) →
      (calls ≠ [] ↔ (pB.pullRequest.id ≠ 0 ∧
        ((mapBitbucketEventKey etB).2 = "opened" ∨
          (mapBitbucketEventKey etB).2 = "synchronize"))) ∧
      ((∀ c ∈ calls, ∃ err, gfB c.1 c.2.1 c.2.2 = Except.error err) → e.files = [])) := by
  refine ⟨?_, ?_, ?_, ?_⟩
  · dsimp only [GitHubAdapter.NormalizeEvent]
    by_cases hc : pG.pullRequest.number ≠ 0 ∧ isFileEnrichableAction pG.action = true
    · rw [if_pos hc]
      rcases hgf : gfG pG.repository.owner.login pG.repository.name
          pG.pullRequest.number with err | fs <;> rfl
    · rw [if_neg hc]
      rfl
  · intro e calls h
    dsimp only [GitHubAdapter.NormalizeEvent] at h
    by_cases hc : pG.pullRequest.number ≠ 0 ∧ isFileEnrichableAction pG.action = true
    · rw [if_pos hc] at h
      rcases hgf : gfG pG.repository.owner.login pG.repository.name
          pG.pullRequest.number with err | fs
      · rw [hgf] at h
        simp only [Except.ok.injEq, Prod.mk.injEq] at h
        obtain ⟨h1, h2⟩ := h
        subst h1; subst h2
        refine ⟨by simp [hc], fun _ => rfl⟩
      · rw [hgf] at h
        simp only [Except.ok.injEq, Prod.mk.injEq] at h
        obtain ⟨h1, h2⟩ := h
        subst h1; subst h2
        refine ⟨by simp [hc], fun hall => ?_⟩
        exfalso
        obtain ⟨err, herr⟩ := hall
          (pG.repository.owner.login, pG.repository.name, pG.pullRequest.number) (by simp)
        rw [hgf] at herr
        exact Except.noConfusion herr
    · rw [if_neg hc] at h
      simp only [Except.ok.injEq, Prod.mk.injEq] at h
      obtain ⟨h1, h2⟩ := h
      subst h1; subst h2
      refine ⟨by simp [hc], fun _ => rfl⟩
  · dsimp only [BitbucketAdapter.NormalizeEvent]
    by_cases hc : pB.pullRequest.id ≠ 0 ∧
        ((mapBitbucketEventKey etB).2 = "opened" ∨ (mapBitbucketEventKey etB).2 = "synchronize")
    · rw [if_pos hc]
      rcases hgf : gfB (bbOwnerRepo pB.repository).1 (bbOwnerRepo pB.repository).2
          pB.pullRequest.id with err | fs <;> rfl
    · rw [if_neg hc]
      rfl
  · intro e calls h
    dsimp only [BitbucketAdapter.NormalizeEvent] at h
    by_cases hc : pB.pullRequest.id ≠ 0 ∧
        ((mapBitbucketEventKey etB).2 = "opened" ∨ (mapBitbucketEventKey etB).2 = "synchronize")
    · rw [if_pos hc] at h
      rcases hgf : gfB (bbOwnerRepo pB.repository).1 (bbOwnerRepo pB.repository).2
          pB.pullRequest.id with err | fs
      · rw [hgf] at h
        simp only [Except.ok.injEq, Prod.mk.injEq] at h
        obtain ⟨h1, h2⟩ := h
        subst h1; subst h2
        refine ⟨by simp [hc], fun _ => rfl⟩
      · rw [hgf] at h
        simp only [Except.ok.injEq, Prod.mk.injEq] at h
        obtain ⟨h1, h2⟩ := h
        subst h1; subst h2
        refine ⟨by simp [hc], fun hall => ?_⟩
        exfalso
        obtain ⟨err, herr⟩ := hall
          ((bbOwnerRepo pB.repository).1, (bbOwnerRepo pB.repository).2, pB.pullRequest.id)
          (by simp)
        rw [hgf] at herr
        exact Except.noConfusion herr
    · rw [if_neg hc] at h
      simp only [Except.ok.injEq, Prod.mk.injEq] at h
      obtain ⟨h1, h2⟩ := h
      subst h1; subst h2
      refine ⟨by simp [hc], fun _ => rfl⟩

/-- C3 witness: on a concrete enrichable GitHub payload with a failing
provider API, exactly one enrichment call is made and the returned event
has an empty file list. -/
theorem C3_enrichment_best_effort_w :
    ([("acme", "widgets", (7 : Int))] ≠ ([] : List (String × String × Int))) ∧
    ghSampleEvent.files = [] := by
  have h := (C3_enrichment_best_effort errOracle errOracle ghSamplePayload
      bbSamplePayload "pullrequest:created" [] 0).2.1
    ghSampleEvent [("acme", "widgets", 7)] rfl
  exact ⟨h.1.mpr (by decide), h.2 (fun c _ => ⟨"api down", rfl⟩)⟩

end GithubApp
